import Mathlib

/-!
Verification of the use-indexed-db-state library (src/index.ts): a React hook
`useIndexedDbState` persisting component state in IndexedDB, plus standalone
accessors `loadStoredData` and `saveStoredUserData` and the connection helper
`connectDb`.

The embedding models JavaScript values with reference identity and truthiness,
the durable store of one (database, objectStore) pair as a total map from keys
to values (with `undef` standing for an absent entry), and the hook as a step
machine over events (consumer write, load resolution, load rejection, delete
call).  Asynchronous failure of the storage layer is made explicit through a
transaction-outcome parameter: a database-open failure rejects the whole
operation, while a failure of the put/delete request itself is awaited through
`Promise.allSettled` in the source and therefore never rejects.

React semantics captured by the step machine:
  - `setValue` with an identical value (Object.is) bails out: no re-render and
    no effect run;
  - the `useEffect` with dependency `[value]` runs after a commit exactly when
    `value` changed relative to the previous commit;
  - the mount `useEffect` (dependency `[]`) runs once; its closure captures
    `loaded` from the first render, where it is `false`.
-/

namespace UseIndexedDb

/-- JavaScript values as far as this library distinguishes them: `undef` is
`undefined` (also the absent-entry result of a store `get`), numbers and
strings carry their primitive value, and `obj id` is a heap object compared by
reference identity (its id).  Equality of two `JSVal`s is exactly the
JavaScript triple-equals used by the source. -/
inductive JSVal where
  | undef
  | num (n : Int)
  | str (s : String)
  | obj (id : Nat)
deriving DecidableEq

/-- JavaScript truthiness, as tested by the mount handler's `if (data)`:
`undefined`, `0` and the empty string are falsy; objects are always truthy. -/
def truthy : JSVal → Bool
  | JSVal.undef => false
  | JSVal.num n => n != 0
  | JSVal.str s => s != ""
  | JSVal.obj _ => true

/-- Default database name (source line 7). -/
def LOCAL_DB_NAME : String := "defaultLocalDb"

/-- Default store name (source line 11). -/
def LOCAL_STORE_NAME : String := "defaultStore"

/-- Outcome of one durable operation, supplied by the environment: the
database open may fail (`connectFailed`, a rejected promise from `openDB`),
the put/delete request inside the transaction may fail (`txFailed`), or
everything succeeds (`ok`). -/
inductive TxOutcome where
  | ok
  | txFailed
  | connectFailed
deriving DecidableEq

/-- A durable operation actually issued against the store (a put or a delete
request handed to the object store). -/
inductive DbOp where
  | save (key : String) (v : JSVal)
  | remove (key : String)
deriving DecidableEq

/-- A lifecycle callback invocation observed by the consumer. -/
inductive CbEvent where
  | loadedCb
  | storedCb
deriving DecidableEq

/-- Contents of one (database, objectStore) collection: a total map from keys
to values, `undef` meaning the key is absent. -/
abbrev Store : Type := String → JSVal

/-- Effect of one save transaction on the collection contents: only a fully
successful transaction changes them; a failed put leaves them unchanged. -/
def storeAfterSave (st : Store) (key : String) (data : JSVal) (o : TxOutcome) : Store :=
  match o with
  | TxOutcome.ok => fun k => if k = key then data else st k
  | _ => st

/-- Effect of one delete transaction on the collection contents. -/
def storeAfterRemove (st : Store) (key : String) (o : TxOutcome) : Store :=
  match o with
  | TxOutcome.ok => fun k => if k = key then JSVal.undef else st k
  | _ => st

/-- Embeds `saveStoredUserData` (source lines 43-55).  The function awaits
`connectDb` directly, so an open failure rejects (`Except.error`); the put and
`tx.done` are awaited with `Promise.allSettled`, so a transaction failure is
swallowed and the operation resolves normally with the contents unchanged. -/
def saveStoredUserData (st : Store) (key : String) (data : JSVal) (o : TxOutcome) :
    Except Unit Store :=
  match o with
  | TxOutcome.connectFailed => Except.error ()
  | _ => Except.ok (storeAfterSave st key data o)

/-- Embeds the durable portion of `deleteStoredUserData` (source lines
117-123): connect, open a readwrite transaction, delete the key, awaiting the
delete and `tx.done` with `Promise.allSettled` (so only the open can reject). -/
def deleteStoredEntry (st : Store) (key : String) (o : TxOutcome) :
    Except Unit Store :=
  match o with
  | TxOutcome.connectFailed => Except.error ()
  | _ => Except.ok (storeAfterRemove st key o)

/-- Optional name fields of `IndexedDbStateProps` (source lines 60-77); the
two callback properties are modelled separately by `CbEvent` traces. -/
structure IndexedDbStateProps where
  localDbName : Option String
  storeName : Option String
deriving DecidableEq

/-- Database/store names used by `loadStoredData` (source line 29): the whole
default object `\x7b localDbName: LOCAL_DB_NAME, storeName: LOCAL_STORE_NAME \x7d`
is substituted only when the argument is omitted (undefined); otherwise each
field is taken from the supplied object as-is, possibly undefined. -/
def loadStoredDataNames (cfg : Option IndexedDbStateProps) : Option String × Option String :=
  match cfg with
  | none => (some LOCAL_DB_NAME, some LOCAL_STORE_NAME)
  | some c => (c.localDbName, c.storeName)

/-- Database/store names used by `saveStoredUserData` (source line 46): the
same whole-object destructuring default as `loadStoredData`. -/
def saveStoredUserDataNames (cfg : Option IndexedDbStateProps) : Option String × Option String :=
  match cfg with
  | none => (some LOCAL_DB_NAME, some LOCAL_STORE_NAME)
  | some c => (c.localDbName, c.storeName)

/-- Database/store names used by `useIndexedDbState` (source lines 91-92):
per-field defaulting `props?.localDbName ?? LOCAL_DB_NAME` and
`props?.storeName ?? LOCAL_STORE_NAME`. -/
def hookResolvedNames (props : Option IndexedDbStateProps) : String × String :=
  ((props.bind (fun p => p.localDbName)).getD LOCAL_DB_NAME,
   (props.bind (fun p => p.storeName)).getD LOCAL_STORE_NAME)

/-- Registry of existing IndexedDB databases: each entry maps a database name
to the list of its object store names.  Every database this library creates is
at schema version 1, the only version it ever requests. -/
abbrev IdbEnv : Type := List (String × List String)

/-- Embeds `openDB(name, 1, upgrade)` from the idb library over IndexedDB
semantics: the upgrade callback runs only when the requested version exceeds
the database's current version.  Since the requested version is always 1, the
upgrade runs exactly when the database does not yet exist (it is then created
with whatever stores the upgrade callback adds to the empty database); an
existing version-1 database is returned unchanged, without running upgrade. -/
def openDB1 (env : IdbEnv) (name : String) (upgrade : List String → List String) :
    IdbEnv × List String :=
  match env.lookup name with
  | some stores => (env, stores)
  | none =>
      let stores := upgrade []
      ((name, stores) :: env, stores)

/-- Embeds `connectDb` (source lines 13-19): open the database at version 1
with an upgrade callback that creates the object store if
`db.objectStoreNames.contains(storeName)` is false.  Returns the updated
registry and the store names of the opened database handle. -/
def connectDb (env : IdbEnv) (localDbName storeName : String) : IdbEnv × List String :=
  openDB1 env localDbName (fun stores =>
    if storeName ∈ stores then stores else stores ++ [storeName])

/-- The hook's three reactive cells (source lines 94-96): `value` (starts at
the default), `storedValue` (the last-known-persisted marker, starts at
`undefined`), and `loaded` (starts false). -/
structure HookState where
  value : JSVal
  storedValue : JSVal
  loaded : Bool
deriving DecidableEq

/-- Initial hook state after the first render (source lines 94-96). -/
def initState (defaultValue : JSVal) : HookState :=
  { value := defaultValue, storedValue := JSVal.undef, loaded := false }

/-- A binding instance together with its durable collection and the traces of
issued durable operations and fired callbacks. -/
structure HookWorld where
  state : HookState
  store : Store
  ops : List DbOp
  cbs : List CbEvent

/-- Embeds `setStoredUserData` (source lines 109-114): return immediately when
the candidate is triple-equal to the marker; otherwise await
`saveStoredUserData` — an open failure rejects before the callback and the
marker update run, while a put failure is settled so the callback fires and
the marker is updated to the (unsaved) value. -/
def setStoredUserDataW (w : HookWorld) (key : String) (data : JSVal) (o : TxOutcome) :
    HookWorld :=
  if w.state.storedValue = data then w
  else
    match o with
    | TxOutcome.connectFailed => w
    | _ =>
        { state := { w.state with storedValue := data },
          store := storeAfterSave w.store key data o,
          ops := w.ops ++ [DbOp.save key data],
          cbs := w.cbs ++ [CbEvent.storedCb] }

/-- Embeds the `useEffect` on `[value]` (source lines 128-130): after a commit
it runs exactly when `value` changed relative to the previous commit
(dependency comparison by identity); its body is a no-op until `loaded` is
true, and otherwise calls `setStoredUserData(value)`. -/
def valueEffect (prevValue : JSVal) (w : HookWorld) (key : String) (o : TxOutcome) :
    HookWorld :=
  if w.state.value = prevValue then w
  else if w.state.loaded then setStoredUserDataW w key w.state.value o
  else w

/-- Events driving one binding instance.  The outcome arguments are the
environment's verdict on the durable operations the event may issue: for
`consumerWrite` the change-triggered save, for `deleteCall` first the delete
transaction and then the save possibly re-triggered by resetting the value. -/
inductive HookEvent where
  | consumerWrite (w : JSVal) (o : TxOutcome)
  | loadResolve
  | loadReject
  | deleteCall (del : TxOutcome) (o : TxOutcome)
deriving DecidableEq

/-- Outcome to use for the change-triggered save that may follow the event's
own state updates. -/
def HookEvent.saveOutcome : HookEvent → TxOutcome
  | HookEvent.consumerWrite _ o => o
  | HookEvent.deleteCall _ o => o
  | _ => TxOutcome.ok

/-- State updates of one event, before the `[value]` effect runs.

`consumerWrite`: `setValue(w)`; React bails out when the new value is
identical to the current one.

`loadResolve`: the mount effect's `getStoredUserData().then(data => ...)`
(source lines 132-142): `setStoredValue(data)` with the fetched `data`, then
`if (data) setValue(data)` — a JS truthiness test — then, since the closure's
`loaded` is the mount render's value `false`, unconditionally `setLoaded(true)`
and the loaded callback.

`loadReject`: the load promise rejected (open or get failure); the `.then`
handler never runs and nothing changes.

`deleteCall`: `deleteStoredUserData` (source lines 116-126): the durable
delete (whose open failure rejects before any state update), then
`setStoredValue(undefined)` and `setValue(defaultValue)`. -/
def applyEvent (key : String) (defaultValue : JSVal) (w : HookWorld) (e : HookEvent) :
    HookWorld :=
  match e with
  | HookEvent.consumerWrite v _ =>
      if v = w.state.value then w
      else { w with state := { w.state with value := v } }
  | HookEvent.loadResolve =>
      let data := w.store key
      let s1 := { w.state with storedValue := data }
      let s2 := if truthy data then { s1 with value := data } else s1
      { w with state := { s2 with loaded := true }, cbs := w.cbs ++ [CbEvent.loadedCb] }
  | HookEvent.loadReject => w
  | HookEvent.deleteCall del _ =>
      match del with
      | TxOutcome.connectFailed => w
      | _ =>
          { state := { value := defaultValue, storedValue := JSVal.undef,
                       loaded := w.state.loaded },
            store := storeAfterRemove w.store key del,
            ops := w.ops ++ [DbOp.remove key],
            cbs := w.cbs }

/-- One full event step: the event's own state updates commit, then the
`[value]` effect runs against the previous commit's value. -/
def hookStep (key : String) (defaultValue : JSVal) (w : HookWorld) (e : HookEvent) :
    HookWorld :=
  valueEffect w.state.value (applyEvent key defaultValue w e) key e.saveOutcome

/-- A fresh binding instance over an initial collection: state from
`initState`, no operations issued, no callbacks fired. -/
def initWorld (defaultValue : JSVal) (st : Store) : HookWorld :=
  { state := initState defaultValue, store := st, ops := [], cbs := [] }

/-- Run a binding instance from mount through a list of events. -/
def runHook (key : String) (defaultValue : JSVal) (st : Store)
    (events : List HookEvent) : HookWorld :=
  events.foldl (hookStep key defaultValue) (initWorld defaultValue st)

/-- Number of save operations in an operation trace. -/
def countSaves (l : List DbOp) : Nat :=
  l.countP (fun o => match o with | DbOp.save _ _ => true | _ => false)

/-- Number of stored-callback firings in a callback trace. -/
def countStoredCb (l : List CbEvent) : Nat :=
  l.countP (fun c => match c with | CbEvent.storedCb => true | _ => false)

/-- Number of loaded-callback firings in a callback trace. -/
def countLoadedCb (l : List CbEvent) : Nat :=
  l.countP (fun c => match c with | CbEvent.loadedCb => true | _ => false)

/-- Number of load-resolution events in an event trace. -/
def countLoadResolves (l : List HookEvent) : Nat :=
  l.countP (fun e => match e with | HookEvent.loadResolve => true | _ => false)

/-! ### Helper lemmas about the step machine -/

theorem countSaves_append (l1 l2 : List DbOp) :
    countSaves (l1 ++ l2) = countSaves l1 + countSaves l2 :=
  List.countP_append _ _ _

theorem countStoredCb_append (l1 l2 : List CbEvent) :
    countStoredCb (l1 ++ l2) = countStoredCb l1 + countStoredCb l2 :=
  List.countP_append _ _ _

theorem countLoadedCb_append (l1 l2 : List CbEvent) :
    countLoadedCb (l1 ++ l2) = countLoadedCb l1 + countLoadedCb l2 :=
  List.countP_append _ _ _

theorem countSaves_save (key : String) (v : JSVal) :
    countSaves [DbOp.save key v] = 1 := by
  simp [countSaves, List.countP_cons]

theorem countSaves_remove (key : String) :
    countSaves [DbOp.remove key] = 0 := by
  simp [countSaves, List.countP_cons]

theorem countStoredCb_storedCb : countStoredCb [CbEvent.storedCb] = 1 := by
  simp [countStoredCb, List.countP_cons]

theorem countStoredCb_loadedCb : countStoredCb [CbEvent.loadedCb] = 0 := by
  simp [countStoredCb, List.countP_cons]

theorem countLoadedCb_storedCb : countLoadedCb [CbEvent.storedCb] = 0 := by
  simp [countLoadedCb, List.countP_cons]

theorem countLoadedCb_loadedCb : countLoadedCb [CbEvent.loadedCb] = 1 := by
  simp [countLoadedCb, List.countP_cons]

theorem setStored_suppress (w : HookWorld) (key : String) (data : JSVal) (o : TxOutcome)
    (h : w.state.storedValue = data) :
    setStoredUserDataW w key data o = w := by
  simp [setStoredUserDataW, h]

theorem setStored_connectFailed (w : HookWorld) (key : String) (data : JSVal) :
    setStoredUserDataW w key data TxOutcome.connectFailed = w := by
  simp [setStoredUserDataW]

theorem setStored_save (w : HookWorld) (key : String) (data : JSVal) (o : TxOutcome)
    (h : w.state.storedValue ≠ data) (ho : o ≠ TxOutcome.connectFailed) :
    setStoredUserDataW w key data o
      = { state := { w.state with storedValue := data },
          store := storeAfterSave w.store key data o,
          ops := w.ops ++ [DbOp.save key data],
          cbs := w.cbs ++ [CbEvent.storedCb] } := by
  unfold setStoredUserDataW
  rw [if_neg h]
  cases o with
  | ok => rfl
  | txFailed => rfl
  | connectFailed => exact absurd rfl ho

theorem write_step_eq (key : String) (dv : JSVal) (w : HookWorld) (v : JSVal)
    (o : TxOutcome) :
    hookStep key dv w (HookEvent.consumerWrite v o)
      = if v = w.state.value then w
        else if w.state.loaded then
          setStoredUserDataW { w with state := { w.state with value := v } } key v o
        else { w with state := { w.state with value := v } } := by
  by_cases hv : v = w.state.value
  · simp [hookStep, applyEvent, valueEffect, hv]
  · by_cases hl : w.state.loaded
    · simp [hookStep, applyEvent, valueEffect, HookEvent.saveOutcome, hv,
        Ne.symm hv, hl]
    · simp [hookStep, applyEvent, valueEffect, hv, Ne.symm hv, hl]

theorem loadResolve_step_eq (key : String) (dv : JSVal) (w : HookWorld) :
    hookStep key dv w HookEvent.loadResolve
      = { w with
          state := { value := if truthy (w.store key) then w.store key else w.state.value,
                     storedValue := w.store key,
                     loaded := true },
          cbs := w.cbs ++ [CbEvent.loadedCb] } := by
  by_cases ht : truthy (w.store key)
  · by_cases hv : w.store key = w.state.value
    · simp [hookStep, applyEvent, valueEffect, ht, hv]
    · simp [hookStep, applyEvent, valueEffect, setStoredUserDataW, ht, hv]
  · simp [hookStep, applyEvent, valueEffect, ht]

theorem delete_connectFailed_eq (key : String) (dv : JSVal) (w : HookWorld)
    (o : TxOutcome) :
    hookStep key dv w (HookEvent.deleteCall TxOutcome.connectFailed o) = w := by
  simp [hookStep, applyEvent, valueEffect]

theorem applyEvent_delete_eq (key : String) (dv : JSVal) (w : HookWorld)
    (del : TxOutcome) (o : TxOutcome) (hdel : del ≠ TxOutcome.connectFailed) :
    applyEvent key dv w (HookEvent.deleteCall del o)
      = { state := { value := dv, storedValue := JSVal.undef, loaded := w.state.loaded },
          store := storeAfterRemove w.store key del,
          ops := w.ops ++ [DbOp.remove key],
          cbs := w.cbs } := by
  cases del with
  | ok => rfl
  | txFailed => rfl
  | connectFailed => exact absurd rfl hdel

theorem delete_step_eq (key : String) (dv : JSVal) (w : HookWorld)
    (del : TxOutcome) (o : TxOutcome) (hdel : del ≠ TxOutcome.connectFailed) :
    hookStep key dv w (HookEvent.deleteCall del o)
      = valueEffect w.state.value
          { state := { value := dv, storedValue := JSVal.undef, loaded := w.state.loaded },
            store := storeAfterRemove w.store key del,
            ops := w.ops ++ [DbOp.remove key],
            cbs := w.cbs } key o := by
  unfold hookStep
  rw [applyEvent_delete_eq key dv w del o hdel]
  rfl

theorem setStored_loaded (w : HookWorld) (key : String) (data : JSVal) (o : TxOutcome) :
    (setStoredUserDataW w key data o).state.loaded = w.state.loaded := by
  unfold setStoredUserDataW
  split
  · rfl
  · cases o with
    | ok => rfl
    | txFailed => rfl
    | connectFailed => rfl

theorem valueEffect_loaded (prevValue : JSVal) (w : HookWorld) (key : String)
    (o : TxOutcome) :
    (valueEffect prevValue w key o).state.loaded = w.state.loaded := by
  unfold valueEffect
  split
  · rfl
  · split
    · exact setStored_loaded w key w.state.value o
    · rfl

theorem hookStep_loaded (key : String) (dv : JSVal) (w : HookWorld) (e : HookEvent) :
    (hookStep key dv w e).state.loaded
      = (if e = HookEvent.loadResolve then true else w.state.loaded) := by
  cases e with
  | consumerWrite v o =>
      unfold hookStep
      rw [valueEffect_loaded]
      simp only [applyEvent]
      split
      · simp
      · simp
  | loadResolve =>
      rw [loadResolve_step_eq]
      simp
  | loadReject =>
      simp [hookStep, applyEvent, valueEffect]
  | deleteCall del o =>
      unfold hookStep
      rw [valueEffect_loaded]
      simp only [applyEvent]
      cases del with
      | ok => simp
      | txFailed => simp
      | connectFailed => simp

theorem runHook_no_load_not_loaded (key : String) (dv : JSVal) (st : Store)
    (evs : List HookEvent) (h : ∀ e ∈ evs, e ≠ HookEvent.loadResolve) :
    (runHook key dv st evs).state.loaded = false := by
  suffices hgen : ∀ (w : HookWorld), w.state.loaded = false →
      (evs.foldl (hookStep key dv) w).state.loaded = false by
    exact hgen (initWorld dv st) rfl
  induction evs with
  | nil => intro w hw; exact hw
  | cons e rest ih =>
      intro w hw
      simp only [List.foldl_cons]
      refine ih (fun e2 he2 => h e2 (List.mem_cons_of_mem e he2)) _ ?_
      rw [hookStep_loaded, if_neg (h e (List.mem_cons_self e rest)), hw]

/-- The pairing relation between two worlds: the number of new save operations
equals the number of new stored-callback firings. -/
def SaveCbPaired (w w2 : HookWorld) : Prop :=
  countSaves w2.ops + countStoredCb w.cbs = countStoredCb w2.cbs + countSaves w.ops

theorem saveCbPaired_refl (w : HookWorld) : SaveCbPaired w w := by
  unfold SaveCbPaired
  omega

theorem saveCbPaired_trans {w w1 w2 : HookWorld}
    (h1 : SaveCbPaired w w1) (h2 : SaveCbPaired w1 w2) : SaveCbPaired w w2 := by
  unfold SaveCbPaired at h1 h2 ⊢
  omega

theorem setStored_paired (w : HookWorld) (key : String) (data : JSVal) (o : TxOutcome) :
    SaveCbPaired w (setStoredUserDataW w key data o) := by
  unfold setStoredUserDataW
  split
  · exact saveCbPaired_refl w
  · cases o with
    | ok =>
        unfold SaveCbPaired
        simp [countSaves_append, countStoredCb_append, countSaves_save, countStoredCb_storedCb]
        omega
    | txFailed =>
        unfold SaveCbPaired
        simp [countSaves_append, countStoredCb_append, countSaves_save, countStoredCb_storedCb]
        omega
    | connectFailed => exact saveCbPaired_refl w

theorem valueEffect_paired (prevValue : JSVal) (w : HookWorld) (key : String)
    (o : TxOutcome) :
    SaveCbPaired w (valueEffect prevValue w key o) := by
  unfold valueEffect
  split
  · exact saveCbPaired_refl w
  · split
    · exact setStored_paired w key w.state.value o
    · exact saveCbPaired_refl w

theorem applyEvent_paired (key : String) (dv : JSVal) (w : HookWorld) (e : HookEvent) :
    SaveCbPaired w (applyEvent key dv w e) := by
  cases e with
  | consumerWrite v o =>
      simp only [applyEvent]
      split
      · exact saveCbPaired_refl w
      · unfold SaveCbPaired
        show countSaves w.ops + countStoredCb w.cbs = countStoredCb w.cbs + countSaves w.ops
        omega
  | loadResolve =>
      simp only [applyEvent]
      unfold SaveCbPaired
      show countSaves w.ops + countStoredCb w.cbs
          = countStoredCb (w.cbs ++ [CbEvent.loadedCb]) + countSaves w.ops
      rw [countStoredCb_append, countStoredCb_loadedCb]
      omega
  | loadReject => exact saveCbPaired_refl w
  | deleteCall del o =>
      cases del with
      | ok =>
          simp only [applyEvent]
          unfold SaveCbPaired
          show countSaves (w.ops ++ [DbOp.remove key]) + countStoredCb w.cbs
              = countStoredCb w.cbs + countSaves w.ops
          rw [countSaves_append, countSaves_remove]
          omega
      | txFailed =>
          simp only [applyEvent]
          unfold SaveCbPaired
          show countSaves (w.ops ++ [DbOp.remove key]) + countStoredCb w.cbs
              = countStoredCb w.cbs + countSaves w.ops
          rw [countSaves_append, countSaves_remove]
          omega
      | connectFailed => exact saveCbPaired_refl w

theorem hookStep_paired (key : String) (dv : JSVal) (w : HookWorld) (e : HookEvent) :
    SaveCbPaired w (hookStep key dv w e) :=
  saveCbPaired_trans (applyEvent_paired key dv w e)
    (valueEffect_paired w.state.value (applyEvent key dv w e) key e.saveOutcome)

theorem setStored_loadedCb (w : HookWorld) (key : String) (data : JSVal) (o : TxOutcome) :
    countLoadedCb (setStoredUserDataW w key data o).cbs = countLoadedCb w.cbs := by
  unfold setStoredUserDataW
  split
  · rfl
  · cases o with
    | ok => simp [countLoadedCb_append, countLoadedCb_storedCb]
    | txFailed => simp [countLoadedCb_append, countLoadedCb_storedCb]
    | connectFailed => rfl

theorem valueEffect_loadedCb (prevValue : JSVal) (w : HookWorld) (key : String)
    (o : TxOutcome) :
    countLoadedCb (valueEffect prevValue w key o).cbs = countLoadedCb w.cbs := by
  unfold valueEffect
  split
  · rfl
  · split
    · exact setStored_loadedCb w key w.state.value o
    · rfl

theorem hookStep_loadedCb (key : String) (dv : JSVal) (w : HookWorld) (e : HookEvent) :
    countLoadedCb (hookStep key dv w e).cbs
      = countLoadedCb w.cbs + (if e = HookEvent.loadResolve then 1 else 0) := by
  unfold hookStep
  rw [valueEffect_loadedCb]
  cases e with
  | consumerWrite v o =>
      simp only [applyEvent]
      split
      · simp
      · simp
  | loadResolve =>
      simp only [applyEvent]
      simp [countLoadedCb_append, countLoadedCb_loadedCb]
  | loadReject => simp [applyEvent]
  | deleteCall del o =>
      simp only [applyEvent]
      cases del with
      | ok => simp
      | txFailed => simp
      | connectFailed => simp

theorem runHook_loadedCb (key : String) (dv : JSVal) (st : Store)
    (evs : List HookEvent) :
    countLoadedCb (runHook key dv st evs).cbs = countLoadResolves evs := by
  suffices hgen : ∀ (w : HookWorld),
      countLoadedCb (List.foldl (hookStep key dv) w evs).cbs
        = countLoadedCb w.cbs + countLoadResolves evs by
    have h0 := hgen (initWorld dv st)
    simpa [runHook, initWorld, countLoadedCb] using h0
  induction evs with
  | nil => intro w; simp [countLoadResolves]
  | cons e rest ih =>
      intro w
      simp only [List.foldl_cons]
      rw [ih, hookStep_loadedCb]
      have hcount : countLoadResolves (e :: rest)
          = (if e = HookEvent.loadResolve then 1 else 0) + countLoadResolves rest := by
        unfold countLoadResolves
        rw [List.countP_cons]
        cases e with
        | consumerWrite v o => simp
        | loadResolve => simp [Nat.add_comm]
        | loadReject => simp
        | deleteCall del o => simp
      rw [hcount]
      omega

theorem setStored_value (w : HookWorld) (key : String) (data : JSVal) (o : TxOutcome) :
    (setStoredUserDataW w key data o).state.value = w.state.value := by
  unfold setStoredUserDataW
  split
  · rfl
  · cases o with
    | ok => rfl
    | txFailed => rfl
    | connectFailed => rfl

theorem write_bail (key : String) (dv : JSVal) (w : HookWorld) (v : JSVal)
    (o : TxOutcome) (h : v = w.state.value) :
    hookStep key dv w (HookEvent.consumerWrite v o) = w := by
  rw [write_step_eq, if_pos h]

theorem write_value (key : String) (dv : JSVal) (w : HookWorld) (v : JSVal)
    (o : TxOutcome) :
    (hookStep key dv w (HookEvent.consumerWrite v o)).state.value = v := by
  rw [write_step_eq]
  by_cases hv : v = w.state.value
  · rw [if_pos hv]
    exact hv.symm
  · rw [if_neg hv]
    by_cases hlo : w.state.loaded = true
    · rw [if_pos hlo, setStored_value]
    · rw [if_neg hlo]

theorem write_connectFailed_eq (key : String) (dv : JSVal) (w : HookWorld) (v : JSVal)
    (hv : v ≠ w.state.value) (hl : w.state.loaded = true) :
    hookStep key dv w (HookEvent.consumerWrite v TxOutcome.connectFailed)
      = { w with state := { w.state with value := v } } := by
  rw [write_step_eq, if_neg hv, if_pos hl, setStored_connectFailed]

theorem write_save_eq (key : String) (dv : JSVal) (w : HookWorld) (v : JSVal)
    (o : TxOutcome) (hv : v ≠ w.state.value) (hl : w.state.loaded = true)
    (hm : w.state.storedValue ≠ v) (ho : o ≠ TxOutcome.connectFailed) :
    hookStep key dv w (HookEvent.consumerWrite v o)
      = { state := { value := v, storedValue := v, loaded := w.state.loaded },
          store := storeAfterSave w.store key v o,
          ops := w.ops ++ [DbOp.save key v],
          cbs := w.cbs ++ [CbEvent.storedCb] } := by
  rw [write_step_eq, if_neg hv, if_pos hl,
    setStored_save { w with state := { w.state with value := v } } key v o hm ho]

theorem setStored_counts_le (w : HookWorld) (key : String) (data : JSVal) (o : TxOutcome) :
    countSaves (setStoredUserDataW w key data o).ops ≤ countSaves w.ops + 1
    ∧ countStoredCb (setStoredUserDataW w key data o).cbs ≤ countStoredCb w.cbs + 1 := by
  unfold setStoredUserDataW
  split
  · exact ⟨by omega, by omega⟩
  · cases o with
    | ok =>
        constructor
        · show countSaves (w.ops ++ [DbOp.save key data]) ≤ countSaves w.ops + 1
          rw [countSaves_append, countSaves_save]
        · show countStoredCb (w.cbs ++ [CbEvent.storedCb]) ≤ countStoredCb w.cbs + 1
          rw [countStoredCb_append, countStoredCb_storedCb]
    | txFailed =>
        constructor
        · show countSaves (w.ops ++ [DbOp.save key data]) ≤ countSaves w.ops + 1
          rw [countSaves_append, countSaves_save]
        · show countStoredCb (w.cbs ++ [CbEvent.storedCb]) ≤ countStoredCb w.cbs + 1
          rw [countStoredCb_append, countStoredCb_storedCb]
    | connectFailed =>
        constructor
        · show countSaves w.ops ≤ countSaves w.ops + 1
          omega
        · show countStoredCb w.cbs ≤ countStoredCb w.cbs + 1
          omega

theorem write_counts_le (key : String) (dv : JSVal) (w : HookWorld) (v : JSVal)
    (o : TxOutcome) :
    countSaves (hookStep key dv w (HookEvent.consumerWrite v o)).ops
      ≤ countSaves w.ops + 1
    ∧ countStoredCb (hookStep key dv w (HookEvent.consumerWrite v o)).cbs
      ≤ countStoredCb w.cbs + 1 := by
  rw [write_step_eq]
  by_cases hv : v = w.state.value
  · rw [if_pos hv]
    exact ⟨by omega, by omega⟩
  · rw [if_neg hv]
    by_cases hlo : w.state.loaded = true
    · rw [if_pos hlo]
      exact setStored_counts_le _ key v o
    · rw [if_neg hlo]
      constructor
      · show countSaves w.ops ≤ countSaves w.ops + 1
        omega
      · show countStoredCb w.cbs ≤ countStoredCb w.cbs + 1
        omega

theorem delete_resave_eq (key : String) (dv : JSVal) (w : HookWorld)
    (hl : w.state.loaded = true) (hne : w.state.value ≠ dv) (hdu : dv ≠ JSVal.undef) :
    hookStep key dv w (HookEvent.deleteCall TxOutcome.ok TxOutcome.ok)
      = { state := { value := dv, storedValue := dv, loaded := w.state.loaded },
          store := storeAfterSave (storeAfterRemove w.store key TxOutcome.ok) key dv
            TxOutcome.ok,
          ops := (w.ops ++ [DbOp.remove key]) ++ [DbOp.save key dv],
          cbs := w.cbs ++ [CbEvent.storedCb] } := by
  rw [delete_step_eq key dv w TxOutcome.ok TxOutcome.ok (by decide)]
  unfold valueEffect
  split
  · next h => exact absurd h.symm hne
  · exact setStored_save _ key dv TxOutcome.ok (Ne.symm hdu) (by decide)

theorem delete_step_cases (key : String) (dv : JSVal) (w : HookWorld)
    (hl : w.state.loaded = true) :
    hookStep key dv w (HookEvent.deleteCall TxOutcome.ok TxOutcome.ok)
      = { state := { value := dv, storedValue := JSVal.undef, loaded := w.state.loaded },
          store := storeAfterRemove w.store key TxOutcome.ok,
          ops := w.ops ++ [DbOp.remove key], cbs := w.cbs }
    ∨ hookStep key dv w (HookEvent.deleteCall TxOutcome.ok TxOutcome.ok)
      = { state := { value := dv, storedValue := dv, loaded := w.state.loaded },
          store := storeAfterSave (storeAfterRemove w.store key TxOutcome.ok) key dv
            TxOutcome.ok,
          ops := (w.ops ++ [DbOp.remove key]) ++ [DbOp.save key dv],
          cbs := w.cbs ++ [CbEvent.storedCb] } := by
  rw [delete_step_eq key dv w TxOutcome.ok TxOutcome.ok (by decide)]
  unfold valueEffect
  split
  · exact Or.inl rfl
  · unfold setStoredUserDataW
    split
    · exact Or.inl rfl
    · exact Or.inr rfl

/-! ### Claim theorems -/

/-- C2, counterexample: the claim says any failure of the underlying put or
delete transaction inside save and remove propagates as a rejection to the
caller.  It is false: the source awaits the put (resp. delete) and `tx.done`
with `Promise.allSettled`, so a failed transaction still resolves the
operation normally (here: `Except.ok` with the contents unchanged), the
failure being swallowed. -/
theorem c2_tx_failure_not_rejected :
    saveStoredUserData (fun _ => JSVal.undef) "k" (JSVal.num 1) TxOutcome.txFailed
      = Except.ok (fun _ => JSVal.undef)
    ∧ deleteStoredEntry (fun _ => JSVal.num 1) "k" TxOutcome.txFailed
      = Except.ok (fun _ => JSVal.num 1) :=
  ⟨rfl, rfl⟩

/-- C2, amended: a failure to open the database propagates as a rejection
from both save and remove, untranslated and unretried; but a failure of the
put or delete transaction itself is awaited through settled aggregation and is
swallowed — the operation resolves normally and the durable contents are left
unchanged.  A fully successful operation resolves with the expected upsert or
removal. -/
theorem c2_failure_propagation (st : Store) (key : String) (data : JSVal) :
    saveStoredUserData st key data TxOutcome.connectFailed = Except.error ()
    ∧ deleteStoredEntry st key TxOutcome.connectFailed = Except.error ()
    ∧ saveStoredUserData st key data TxOutcome.txFailed = Except.ok st
    ∧ deleteStoredEntry st key TxOutcome.txFailed = Except.ok st
    ∧ saveStoredUserData st key data TxOutcome.ok
        = Except.ok (fun k => if k = key then data else st k)
    ∧ deleteStoredEntry st key TxOutcome.ok
        = Except.ok (fun k => if k = key then JSVal.undef else st k) :=
  ⟨rfl, rfl, rfl, rfl, rfl, rfl⟩

/-- C4: a falsy value previously stored under the key (here the number 0,
which the load returns and which is distinct from the absent result) does NOT
overwrite the default value when the initial load settles, because the mount
handler guards the overwrite with the JavaScript truthiness test `if (data)`.
The loaded flag still becomes true.  This contradicts the claim and the
library's own documentation ("the last value will be restored"). -/
theorem c4_falsy_stored_value_not_restored :
    (runHook "k" (JSVal.num 5) (fun k => if k = "k" then JSVal.num 0 else JSVal.undef)
        [HookEvent.loadResolve]).state.value = JSVal.num 5
    ∧ (runHook "k" (JSVal.num 5) (fun k => if k = "k" then JSVal.num 0 else JSVal.undef)
        [HookEvent.loadResolve]).state.loaded = true
    ∧ (fun k => if k = "k" then JSVal.num 0 else JSVal.undef) "k" = JSVal.num 0
    ∧ truthy (JSVal.num 0) = false := by
  refine ⟨?_, ?_, ?_, ?_⟩ <;> decide

/-- C9, counterexample: the claim says connect creates the collection whenever
it does not yet exist, including when the database itself already exists but
was created without this collection.  It is false: the database is always
opened at the fixed version 1, and the IndexedDB upgrade step (the only place
the source creates the store) runs only when the requested version exceeds the
existing one — so a database that already exists at version 1 with a different
store is returned as-is and the requested collection is not created. -/
theorem c9_existing_db_missing_collection :
    connectDb [("db1", ["storeA"])] "db1" "storeB"
      = ([("db1", ["storeA"])], ["storeA"])
    ∧ "storeB" ∉ (connectDb [("db1", ["storeA"])] "db1" "storeB").2 := by
  refine ⟨?_, ?_⟩ <;> decide

/-- C9, amended: connect opens the named database at the fixed schema version
1 and is idempotent; the collection is created during the upgrade step only
when the database itself does not yet exist (the upgrade then starts from an
empty database).  A database already existing at version 1 is returned with
its stores unchanged, whether or not it contains the requested collection. -/
theorem c9_connect_semantics (env : IdbEnv) (name storeName : String) :
    (env.lookup name = none →
      connectDb env name storeName = ((name, [storeName]) :: env, [storeName]))
    ∧ (∀ ss, env.lookup name = some ss → connectDb env name storeName = (env, ss))
    ∧ connectDb (connectDb env name storeName).1 name storeName
        = connectDb env name storeName := by
  refine ⟨fun h => ?_, fun ss hss => ?_, ?_⟩
  · simp [connectDb, openDB1, h]
  · simp [connectDb, openDB1, hss]
  · cases h : env.lookup name with
    | some ss => simp [connectDb, openDB1, h]
    | none => simp [connectDb, openDB1, h, List.lookup]

/-- Witness for c9_connect_semantics at a concrete fresh environment. -/
theorem c9_connect_semantics_witness :
    connectDb ([] : IdbEnv) "db1" "storeA" = ([("db1", ["storeA"])], ["storeA"]) :=
  (c9_connect_semantics [] "db1" "storeA").1 (by decide)

/-- C10: the standalone functions substitute the whole default object
(well-known database and store names) only when the configuration argument is
omitted; a configuration carrying only one of the two names leaves the other
one undefined, while the hook defaults each name independently per field. -/
theorem c10_standalone_default_all_or_nothing (n m : String) :
    loadStoredDataNames none = (some LOCAL_DB_NAME, some LOCAL_STORE_NAME)
    ∧ saveStoredUserDataNames none = (some LOCAL_DB_NAME, some LOCAL_STORE_NAME)
    ∧ loadStoredDataNames (some { localDbName := some n, storeName := none })
        = (some n, none)
    ∧ loadStoredDataNames (some { localDbName := none, storeName := some m })
        = (none, some m)
    ∧ saveStoredUserDataNames (some { localDbName := some n, storeName := none })
        = (some n, none)
    ∧ saveStoredUserDataNames (some { localDbName := none, storeName := some m })
        = (none, some m)
    ∧ hookResolvedNames (some { localDbName := some n, storeName := none })
        = (n, LOCAL_STORE_NAME)
    ∧ hookResolvedNames (some { localDbName := none, storeName := some m })
        = (LOCAL_DB_NAME, m)
    ∧ hookResolvedNames none = (LOCAL_DB_NAME, LOCAL_STORE_NAME) :=
  ⟨rfl, rfl, rfl, rfl, rfl, rfl, rfl, rfl, rfl⟩

/-- C1, counterexample: the claim says that once the initial load settles and
the loaded flag becomes true, the pre-load write's persistence side-effect
fires.  It is false: with no previously stored value, a consumer write of 5
before the load settles, followed by the load's resolution (absent), leaves
the loaded flag true and the current value 5 while the operation trace is
still empty — no durable save was ever issued for the pre-load write, because
the effect hooked on the value runs only when the value changes and the
value did not change at load settling. -/
theorem c1_preload_write_never_persisted :
    (runHook "k" (JSVal.num 0) (fun _ => JSVal.undef)
        [HookEvent.consumerWrite (JSVal.num 5) TxOutcome.ok, HookEvent.loadResolve]).state.loaded
      = true
    ∧ (runHook "k" (JSVal.num 0) (fun _ => JSVal.undef)
        [HookEvent.consumerWrite (JSVal.num 5) TxOutcome.ok, HookEvent.loadResolve]).state.value
      = JSVal.num 5
    ∧ (runHook "k" (JSVal.num 0) (fun _ => JSVal.undef)
        [HookEvent.consumerWrite (JSVal.num 5) TxOutcome.ok, HookEvent.loadResolve]).ops
      = [] := by
  refine ⟨?_, ?_, ?_⟩ <;> decide

/-- C1, amended: a consumer write issued before the loaded flag becomes true
updates the current value but does not issue any durable operation, fire any
callback, or change the durable contents; and the settling of the initial
load itself never issues a durable save (in particular not for a pre-load
write: when the load overwrites the value the save of the loaded value is
suppressed by the just-recorded marker, and otherwise the value is unchanged
so the change effect does not run).  Persistence of a pre-load write happens
only through a later value change once loaded is true. -/
theorem c1_deferred_persistence (key : String) (dv : JSVal) (w : HookWorld)
    (v : JSVal) (o : TxOutcome) (h : w.state.loaded = false) :
    (hookStep key dv w (HookEvent.consumerWrite v o)).ops = w.ops
    ∧ (hookStep key dv w (HookEvent.consumerWrite v o)).cbs = w.cbs
    ∧ (hookStep key dv w (HookEvent.consumerWrite v o)).store = w.store
    ∧ (hookStep key dv w (HookEvent.consumerWrite v o)).state.value = v
    ∧ ∀ w2 : HookWorld, (hookStep key dv w2 HookEvent.loadResolve).ops = w2.ops := by
  have hstep : hookStep key dv w (HookEvent.consumerWrite v o)
      = if v = w.state.value then w else { w with state := { w.state with value := v } } := by
    rw [write_step_eq]
    by_cases hv : v = w.state.value
    · simp [hv]
    · simp [hv, h]
  refine ⟨?_, ?_, ?_, ?_, fun w2 => by rw [loadResolve_step_eq]⟩ <;>
    rw [hstep] <;> by_cases hv : v = w.state.value <;> simp [hv]

/-- Witness for c1_deferred_persistence: a pre-load write on a fresh binding
issues no durable operation. -/
theorem c1_deferred_persistence_witness :
    (hookStep "k" (JSVal.num 0) (initWorld (JSVal.num 0) (fun _ => JSVal.undef))
        (HookEvent.consumerWrite (JSVal.num 5) TxOutcome.ok)).ops
      = (initWorld (JSVal.num 0) (fun _ => JSVal.undef)).ops :=
  (c1_deferred_persistence "k" (JSVal.num 0)
      (initWorld (JSVal.num 0) (fun _ => JSVal.undef)) (JSVal.num 5) TxOutcome.ok rfl).1

/-- C3, counterexample: the claim says a failed change-triggered save leaves
the last-known-persisted marker unchanged and does not fire the stored
callback.  It is false when the put transaction fails: since the put and
`tx.done` are awaited with `Promise.allSettled`, the save resolves anyway, so
the stored callback fires and the marker is updated to 1 even though the
durable entry still holds 0. -/
theorem c3_put_failure_updates_marker :
    (hookStep "k" (JSVal.num 0)
        { state := { value := JSVal.num 0, storedValue := JSVal.num 0, loaded := true },
          store := fun k => if k = "k" then JSVal.num 0 else JSVal.undef,
          ops := [], cbs := [] }
        (HookEvent.consumerWrite (JSVal.num 1) TxOutcome.txFailed)).state.storedValue
      = JSVal.num 1
    ∧ (hookStep "k" (JSVal.num 0)
        { state := { value := JSVal.num 0, storedValue := JSVal.num 0, loaded := true },
          store := fun k => if k = "k" then JSVal.num 0 else JSVal.undef,
          ops := [], cbs := [] }
        (HookEvent.consumerWrite (JSVal.num 1) TxOutcome.txFailed)).cbs
      = [CbEvent.storedCb]
    ∧ (hookStep "k" (JSVal.num 0)
        { state := { value := JSVal.num 0, storedValue := JSVal.num 0, loaded := true },
          store := fun k => if k = "k" then JSVal.num 0 else JSVal.undef,
          ops := [], cbs := [] }
        (HookEvent.consumerWrite (JSVal.num 1) TxOutcome.txFailed)).store "k"
      = JSVal.num 0 := by
  refine ⟨?_, ?_, ?_⟩ <;> decide

/-- C3, amended: when a change-triggered save fails while opening the
database, the rejection happens before the callback and the marker update, so
the marker stays unchanged, the stored callback does not fire, no operation is
issued, and the next value change attempts a save again.  But when the put
transaction itself fails, the settled await swallows the failure: the stored
callback fires and the marker is updated to the value that was never durably
written, so a re-attempted save of that same value would afterwards be
suppressed by the equality check. -/
theorem c3_save_failure_semantics (key : String) (dv : JSVal) (w : HookWorld)
    (v v2 : JSVal) (hl : w.state.loaded = true) (hv : v ≠ w.state.value)
    (hm : w.state.storedValue ≠ v) (hvv : v2 ≠ v) (hm2 : w.state.storedValue ≠ v2) :
    (hookStep key dv w (HookEvent.consumerWrite v TxOutcome.connectFailed)).state.storedValue
        = w.state.storedValue
    ∧ (hookStep key dv w (HookEvent.consumerWrite v TxOutcome.connectFailed)).cbs = w.cbs
    ∧ (hookStep key dv w (HookEvent.consumerWrite v TxOutcome.connectFailed)).ops = w.ops
    ∧ (hookStep key dv w (HookEvent.consumerWrite v TxOutcome.connectFailed)).state.value = v
    ∧ (hookStep key dv
          (hookStep key dv w (HookEvent.consumerWrite v TxOutcome.connectFailed))
          (HookEvent.consumerWrite v2 TxOutcome.ok)).ops
        = w.ops ++ [DbOp.save key v2]
    ∧ (hookStep key dv w (HookEvent.consumerWrite v TxOutcome.txFailed)).state.storedValue = v
    ∧ (hookStep key dv w (HookEvent.consumerWrite v TxOutcome.txFailed)).cbs
        = w.cbs ++ [CbEvent.storedCb]
    ∧ (hookStep key dv w (HookEvent.consumerWrite v TxOutcome.txFailed)).store = w.store
    ∧ (hookStep key dv w (HookEvent.consumerWrite v TxOutcome.txFailed)).ops
        = w.ops ++ [DbOp.save key v]
    ∧ ∀ o2, setStoredUserDataW
          (hookStep key dv w (HookEvent.consumerWrite v TxOutcome.txFailed)) key v o2
        = hookStep key dv w (HookEvent.consumerWrite v TxOutcome.txFailed) := by
  have hcf := write_connectFailed_eq key dv w v hv hl
  have htx := write_save_eq key dv w v TxOutcome.txFailed hv hl hm (by decide)
  refine ⟨?_, ?_, ?_, ?_, ?_, ?_, ?_, ?_, ?_, ?_⟩
  · rw [hcf]
  · rw [hcf]
  · rw [hcf]
  · rw [hcf]
  · rw [hcf, write_save_eq key dv { w with state := { w.state with value := v } } v2
      TxOutcome.ok hvv hl hm2 (by decide)]
  · rw [htx]
  · rw [htx]
  · rw [htx]
    rfl
  · rw [htx]
  · intro o2
    rw [htx]
    exact setStored_suppress _ key v o2 rfl

/-- Witness for c3_save_failure_semantics at a concrete loaded binding. -/
theorem c3_save_failure_semantics_witness :
    (hookStep "k" (JSVal.num 0)
        { state := { value := JSVal.num 0, storedValue := JSVal.num 0, loaded := true },
          store := fun _ => JSVal.undef, ops := [], cbs := [] }
        (HookEvent.consumerWrite (JSVal.num 1) TxOutcome.connectFailed)).state.storedValue
      = JSVal.num 0 :=
  (c3_save_failure_semantics "k" (JSVal.num 0)
      { state := { value := JSVal.num 0, storedValue := JSVal.num 0, loaded := true },
        store := fun _ => JSVal.undef, ops := [], cbs := [] }
      (JSVal.num 1) (JSVal.num 2) rfl (by decide) (by decide) (by decide) (by decide)).1

/-- C5: with the loaded flag true, writing the same value twice in a row
issues at most one durable save and at most one stored callback (the second
write is a no-op because the reactive cell's value is already that value);
and when the candidate value is identical to the last-known-persisted marker,
no durable operation is issued, no stored callback fires and the durable
contents are untouched.  Identity is the modelled JavaScript triple-equals:
numbers and strings by value, objects by reference. -/
theorem c5_redundant_write_suppressed (key : String) (dv : JSVal) (w : HookWorld)
    (v : JSVal) (o1 o2 : TxOutcome) (hl : w.state.loaded = true) :
    countSaves (hookStep key dv (hookStep key dv w (HookEvent.consumerWrite v o1))
        (HookEvent.consumerWrite v o2)).ops
      ≤ countSaves w.ops + 1
    ∧ countStoredCb (hookStep key dv (hookStep key dv w (HookEvent.consumerWrite v o1))
        (HookEvent.consumerWrite v o2)).cbs
      ≤ countStoredCb w.cbs + 1
    ∧ (w.state.storedValue = v →
        (hookStep key dv w (HookEvent.consumerWrite v o1)).ops = w.ops
        ∧ (hookStep key dv w (HookEvent.consumerWrite v o1)).cbs = w.cbs
        ∧ (hookStep key dv w (HookEvent.consumerWrite v o1)).store = w.store) := by
  have hsecond : hookStep key dv (hookStep key dv w (HookEvent.consumerWrite v o1))
      (HookEvent.consumerWrite v o2) = hookStep key dv w (HookEvent.consumerWrite v o1) :=
    write_bail key dv _ v o2 (write_value key dv w v o1).symm
  refine ⟨?_, ?_, ?_⟩
  · rw [hsecond]
    exact (write_counts_le key dv w v o1).1
  · rw [hsecond]
    exact (write_counts_le key dv w v o1).2
  · intro hm
    have hfirst : hookStep key dv w (HookEvent.consumerWrite v o1) = w
        ∨ hookStep key dv w (HookEvent.consumerWrite v o1)
          = { w with state := { w.state with value := v } } := by
      by_cases hv : v = w.state.value
      · exact Or.inl (write_bail key dv w v o1 hv)
      · refine Or.inr ?_
        rw [write_step_eq, if_neg hv, if_pos hl]
        exact setStored_suppress _ key v o1 hm
    cases hfirst with
    | inl h => rw [h]; exact ⟨rfl, rfl, rfl⟩
    | inr h => rw [h]; exact ⟨rfl, rfl, rfl⟩

/-- Witness for c5_redundant_write_suppressed at a concrete loaded binding. -/
theorem c5_redundant_write_suppressed_witness :
    countSaves (hookStep "k" (JSVal.num 0)
        (hookStep "k" (JSVal.num 0)
          { state := { value := JSVal.num 0, storedValue := JSVal.undef, loaded := true },
            store := fun _ => JSVal.undef, ops := [], cbs := [] }
          (HookEvent.consumerWrite (JSVal.num 1) TxOutcome.ok))
        (HookEvent.consumerWrite (JSVal.num 1) TxOutcome.ok)).ops
      ≤ countSaves
          ({ state := { value := JSVal.num 0, storedValue := JSVal.undef, loaded := true },
             store := fun _ => JSVal.undef, ops := [], cbs := [] } : HookWorld).ops + 1 :=
  (c5_redundant_write_suppressed "k" (JSVal.num 0)
      { state := { value := JSVal.num 0, storedValue := JSVal.undef, loaded := true },
        store := fun _ => JSVal.undef, ops := [], cbs := [] }
      (JSVal.num 1) TxOutcome.ok TxOutcome.ok rfl).1

/-- C6, counterexample: the claim says delete resets so that a subsequent
write of the originally stored value is persisted again rather than
suppressed.  It is false when the originally stored value equals the default
value: on a loaded binding with stored and current value 0 and default 0,
delete removes the entry and resets the value to 0, and a subsequent write of
0 is a no-op at the reactive cell (the value is already 0), so no save is ever
issued and the durable entry stays absent. -/
theorem c6_rewrite_of_default_not_persisted :
    (hookStep "k" (JSVal.num 0)
        (hookStep "k" (JSVal.num 0)
          { state := { value := JSVal.num 0, storedValue := JSVal.num 0, loaded := true },
            store := fun k => if k = "k" then JSVal.num 0 else JSVal.undef,
            ops := [], cbs := [] }
          (HookEvent.deleteCall TxOutcome.ok TxOutcome.ok))
        (HookEvent.consumerWrite (JSVal.num 0) TxOutcome.ok)).ops
      = [DbOp.remove "k"]
    ∧ (hookStep "k" (JSVal.num 0)
        (hookStep "k" (JSVal.num 0)
          { state := { value := JSVal.num 0, storedValue := JSVal.num 0, loaded := true },
            store := fun k => if k = "k" then JSVal.num 0 else JSVal.undef,
            ops := [], cbs := [] }
          (HookEvent.deleteCall TxOutcome.ok TxOutcome.ok))
        (HookEvent.consumerWrite (JSVal.num 0) TxOutcome.ok)).store "k"
      = JSVal.undef
    ∧ (hookStep "k" (JSVal.num 0)
        (hookStep "k" (JSVal.num 0)
          { state := { value := JSVal.num 0, storedValue := JSVal.num 0, loaded := true },
            store := fun k => if k = "k" then JSVal.num 0 else JSVal.undef,
            ops := [], cbs := [] }
          (HookEvent.deleteCall TxOutcome.ok TxOutcome.ok))
        (HookEvent.consumerWrite (JSVal.num 0) TxOutcome.ok)).state.value
      = JSVal.num 0 := by
  refine ⟨?_, ?_, ?_⟩ <;> decide

/-- C6, amended: the delete operation proper removes the durable entry for
the key, resets the current value to the default value, resets the
last-known-persisted marker to unknown, and fires no callback; on a loaded
binding, a subsequent write of the originally stored value v is then
persisted again — provided v is a defined value different (by identity) from
the default value, since a write of a value identical to the freshly-reset
default is a no-op at the reactive cell and a stored undefined value is
indistinguishable from the unknown marker. -/
theorem c6_delete_resets (key : String) (dv : JSVal) (w : HookWorld) (v : JSVal)
    (hl : w.state.loaded = true) (hvd : v ≠ dv) (hvu : v ≠ JSVal.undef) :
    (applyEvent key dv w (HookEvent.deleteCall TxOutcome.ok TxOutcome.ok)).state.value = dv
    ∧ (applyEvent key dv w (HookEvent.deleteCall TxOutcome.ok TxOutcome.ok)).state.storedValue
        = JSVal.undef
    ∧ (applyEvent key dv w (HookEvent.deleteCall TxOutcome.ok TxOutcome.ok)).store key
        = JSVal.undef
    ∧ (applyEvent key dv w (HookEvent.deleteCall TxOutcome.ok TxOutcome.ok)).ops
        = w.ops ++ [DbOp.remove key]
    ∧ (applyEvent key dv w (HookEvent.deleteCall TxOutcome.ok TxOutcome.ok)).cbs = w.cbs
    ∧ (hookStep key dv (hookStep key dv w (HookEvent.deleteCall TxOutcome.ok TxOutcome.ok))
          (HookEvent.consumerWrite v TxOutcome.ok)).store key = v
    ∧ countSaves (hookStep key dv
          (hookStep key dv w (HookEvent.deleteCall TxOutcome.ok TxOutcome.ok))
          (HookEvent.consumerWrite v TxOutcome.ok)).ops
        = countSaves (hookStep key dv w (HookEvent.deleteCall TxOutcome.ok TxOutcome.ok)).ops
            + 1 := by
  have happ := applyEvent_delete_eq key dv w TxOutcome.ok TxOutcome.ok (by decide)
  have hwrite : (hookStep key dv
        (hookStep key dv w (HookEvent.deleteCall TxOutcome.ok TxOutcome.ok))
        (HookEvent.consumerWrite v TxOutcome.ok)).store key = v
      ∧ countSaves (hookStep key dv
          (hookStep key dv w (HookEvent.deleteCall TxOutcome.ok TxOutcome.ok))
          (HookEvent.consumerWrite v TxOutcome.ok)).ops
        = countSaves
            (hookStep key dv w (HookEvent.deleteCall TxOutcome.ok TxOutcome.ok)).ops + 1 := by
    cases delete_step_cases key dv w hl with
    | inl h =>
        rw [h, write_save_eq key dv
          { state := { value := dv, storedValue := JSVal.undef, loaded := w.state.loaded },
            store := storeAfterRemove w.store key TxOutcome.ok,
            ops := w.ops ++ [DbOp.remove key], cbs := w.cbs }
          v TxOutcome.ok hvd hl (Ne.symm hvu) (by decide)]
        constructor
        · show storeAfterSave (storeAfterRemove w.store key TxOutcome.ok) key v
              TxOutcome.ok key = v
          simp [storeAfterSave]
        · show countSaves ((w.ops ++ [DbOp.remove key]) ++ [DbOp.save key v])
              = countSaves (w.ops ++ [DbOp.remove key]) + 1
          rw [countSaves_append, countSaves_save]
    | inr h =>
        rw [h, write_save_eq key dv
          { state := { value := dv, storedValue := dv, loaded := w.state.loaded },
            store := storeAfterSave (storeAfterRemove w.store key TxOutcome.ok) key dv
              TxOutcome.ok,
            ops := (w.ops ++ [DbOp.remove key]) ++ [DbOp.save key dv],
            cbs := w.cbs ++ [CbEvent.storedCb] }
          v TxOutcome.ok hvd hl (Ne.symm hvd) (by decide)]
        constructor
        · show storeAfterSave
              (storeAfterSave (storeAfterRemove w.store key TxOutcome.ok) key dv TxOutcome.ok)
              key v TxOutcome.ok key = v
          simp [storeAfterSave]
        · show countSaves (((w.ops ++ [DbOp.remove key]) ++ [DbOp.save key dv])
                ++ [DbOp.save key v])
              = countSaves ((w.ops ++ [DbOp.remove key]) ++ [DbOp.save key dv]) + 1
          rw [countSaves_append, countSaves_save]
  refine ⟨?_, ?_, ?_, ?_, ?_, hwrite.1, hwrite.2⟩
  · rw [happ]
  · rw [happ]
  · rw [happ]
    show storeAfterRemove w.store key TxOutcome.ok key = JSVal.undef
    simp [storeAfterRemove]
  · rw [happ]
  · rw [happ]

/-- Witness for c6_delete_resets at a concrete loaded binding with stored
value 1 and default 0. -/
theorem c6_delete_resets_witness :
    (applyEvent "k" (JSVal.num 0)
        { state := { value := JSVal.num 1, storedValue := JSVal.num 1, loaded := true },
          store := fun k => if k = "k" then JSVal.num 1 else JSVal.undef,
          ops := [], cbs := [] }
        (HookEvent.deleteCall TxOutcome.ok TxOutcome.ok)).state.value = JSVal.num 0 :=
  (c6_delete_resets "k" (JSVal.num 0)
      { state := { value := JSVal.num 1, storedValue := JSVal.num 1, loaded := true },
        store := fun k => if k = "k" then JSVal.num 1 else JSVal.undef,
        ops := [], cbs := [] }
      (JSVal.num 1) rfl (by decide) (by decide)).1

/-- C7, counterexample: the claim says the stored callback never fires as a
consequence of a delete, a delete triggering no durable save.  It is false: on
a loaded binding with current and stored value 1 and default 0, the delete's
reset of the current value to the default re-triggers the change-persistence
effect, which issues a durable save of the default (the marker, just reset to
unknown, differs from the default) and fires the stored callback. -/
theorem c7_delete_triggers_save_and_callback :
    (hookStep "k" (JSVal.num 0)
        { state := { value := JSVal.num 1, storedValue := JSVal.num 1, loaded := true },
          store := fun k => if k = "k" then JSVal.num 1 else JSVal.undef,
          ops := [], cbs := [] }
        (HookEvent.deleteCall TxOutcome.ok TxOutcome.ok)).ops
      = [DbOp.remove "k", DbOp.save "k" (JSVal.num 0)]
    ∧ (hookStep "k" (JSVal.num 0)
        { state := { value := JSVal.num 1, storedValue := JSVal.num 1, loaded := true },
          store := fun k => if k = "k" then JSVal.num 1 else JSVal.undef,
          ops := [], cbs := [] }
        (HookEvent.deleteCall TxOutcome.ok TxOutcome.ok)).cbs
      = [CbEvent.storedCb]
    ∧ (hookStep "k" (JSVal.num 0)
        { state := { value := JSVal.num 1, storedValue := JSVal.num 1, loaded := true },
          store := fun k => if k = "k" then JSVal.num 1 else JSVal.undef,
          ops := [], cbs := [] }
        (HookEvent.deleteCall TxOutcome.ok TxOutcome.ok)).store "k"
      = JSVal.num 0 := by
  refine ⟨?_, ?_, ?_⟩ <;> decide

/-- C7, amended: in every step, the number of newly fired stored callbacks
equals the number of newly issued durable saves (so the stored callback fires
exactly once per actually-issued save and never on a suppressed one); the
loaded callback fires exactly once per load resolution along any trace (so
exactly once when the single mount load settles); the delete operation proper
fires no callback and issues no save — but on a loaded binding whose current
value differs from the default (a defined one), the delete's value reset
re-triggers change persistence, so the full delete step issues a save of the
default value and fires the stored callback. -/
theorem c7_callback_semantics (key : String) (dv : JSVal) (st : Store)
    (w : HookWorld) (e : HookEvent) (evs : List HookEvent) (del o : TxOutcome)
    (hl : w.state.loaded = true) (hne : w.state.value ≠ dv) (hdu : dv ≠ JSVal.undef) :
    countSaves (hookStep key dv w e).ops + countStoredCb w.cbs
      = countStoredCb (hookStep key dv w e).cbs + countSaves w.ops
    ∧ countLoadedCb (runHook key dv st evs).cbs = countLoadResolves evs
    ∧ (applyEvent key dv w (HookEvent.deleteCall del o)).cbs = w.cbs
    ∧ countSaves (applyEvent key dv w (HookEvent.deleteCall del o)).ops = countSaves w.ops
    ∧ (hookStep key dv w (HookEvent.deleteCall TxOutcome.ok TxOutcome.ok)).ops
        = w.ops ++ [DbOp.remove key, DbOp.save key dv]
    ∧ (hookStep key dv w (HookEvent.deleteCall TxOutcome.ok TxOutcome.ok)).cbs
        = w.cbs ++ [CbEvent.storedCb] := by
  have hresave := delete_resave_eq key dv w hl hne hdu
  refine ⟨hookStep_paired key dv w e, runHook_loadedCb key dv st evs, ?_, ?_, ?_, ?_⟩
  · cases del with
    | ok => rw [applyEvent_delete_eq key dv w TxOutcome.ok o (by decide)]
    | txFailed => rw [applyEvent_delete_eq key dv w TxOutcome.txFailed o (by decide)]
    | connectFailed => rfl
  · cases del with
    | ok =>
        rw [applyEvent_delete_eq key dv w TxOutcome.ok o (by decide)]
        show countSaves (w.ops ++ [DbOp.remove key]) = countSaves w.ops
        rw [countSaves_append, countSaves_remove]
        omega
    | txFailed =>
        rw [applyEvent_delete_eq key dv w TxOutcome.txFailed o (by decide)]
        show countSaves (w.ops ++ [DbOp.remove key]) = countSaves w.ops
        rw [countSaves_append, countSaves_remove]
        omega
    | connectFailed => rfl
  · rw [hresave]
    show (w.ops ++ [DbOp.remove key]) ++ [DbOp.save key dv]
        = w.ops ++ [DbOp.remove key, DbOp.save key dv]
    rw [List.append_assoc]
    rfl
  · rw [hresave]

/-- Witness for c7_callback_semantics at a concrete loaded binding. -/
theorem c7_callback_semantics_witness :
    countLoadedCb (runHook "k" (JSVal.num 0) (fun _ => JSVal.undef)
        [HookEvent.loadResolve]).cbs
      = countLoadResolves [HookEvent.loadResolve] :=
  (c7_callback_semantics "k" (JSVal.num 0) (fun _ => JSVal.undef)
      { state := { value := JSVal.num 1, storedValue := JSVal.num 1, loaded := true },
        store := fun _ => JSVal.undef, ops := [], cbs := [] }
      HookEvent.loadReject [HookEvent.loadResolve] TxOutcome.ok TxOutcome.ok
      rfl (by decide) (by decide)).2.1

/-- C8: the loaded flag starts false; it is monotone (a step never takes it
from true back to false, in particular delete does not reset it), it becomes
true only through a resolution of the load (so transitioning false to true at
most once along any trace, after the first load event that resolves — whether
a value was found or the key was absent), and it stays false forever on any
trace whose load attempts all fail at the connection (no load resolution). -/
theorem c8_loaded_flag_invariants (key : String) (dv : JSVal) (st : Store)
    (w : HookWorld) (e : HookEvent) (evs : List HookEvent) :
    (initWorld dv st).state.loaded = false
    ∧ (w.state.loaded = true → (hookStep key dv w e).state.loaded = true)
    ∧ ((hookStep key dv w e).state.loaded = true →
        w.state.loaded = true ∨ e = HookEvent.loadResolve)
    ∧ ((∀ e2 ∈ evs, e2 ≠ HookEvent.loadResolve) →
        (runHook key dv st evs).state.loaded = false) := by
  refine ⟨rfl, ?_, ?_, runHook_no_load_not_loaded key dv st evs⟩
  · intro hl
    rw [hookStep_loaded]
    by_cases he : e = HookEvent.loadResolve
    · simp [he]
    · simp [he, hl]
  · intro hl
    rw [hookStep_loaded] at hl
    by_cases he : e = HookEvent.loadResolve
    · exact Or.inr he
    · rw [if_neg he] at hl
      exact Or.inl hl

/-- Witness for c8_loaded_flag_invariants: on a fresh binding whose only load
attempt is rejected at connection, the loaded flag is false. -/
theorem c8_loaded_flag_invariants_witness :
    (runHook "k" (JSVal.num 0) (fun _ => JSVal.undef)
        [HookEvent.loadReject, HookEvent.consumerWrite (JSVal.num 5) TxOutcome.ok]).state.loaded
      = false :=
  (c8_loaded_flag_invariants "k" (JSVal.num 0) (fun _ => JSVal.undef)
      (initWorld (JSVal.num 0) (fun _ => JSVal.undef)) HookEvent.loadReject
      [HookEvent.loadReject, HookEvent.consumerWrite (JSVal.num 5) TxOutcome.ok]).2.2.2
    (by decide)

end UseIndexedDb
